import Mathlib

/-!
Shallow embedding of the core of `speclite/filters.py` (filter response curves
and their convolution with tabulated spectra), together with theorems settling
the specification claims about it.

Modelling conventions:
* Numeric values are exact rationals (`ℚ`); numpy 1-D arrays are `List ℚ`.
* A physical unit tag is modelled as `Option ℚ`, where `some f` means "tagged
  with a unit whose conversion factor to the canonical unit of its dimension
  is `f`" (e.g. nanometer as a wavelength unit is `some 10`, since
  1 nm = 10 Angstrom and the canonical wavelength unit is Angstrom).  All
  modelled units are convertible; no claim below exercises an inconvertible
  unit.  Attaching or removing a unit tag never changes the stored numbers,
  exactly as in astropy where `Quantity.value` is the raw array.
* numpy's in-place operations on views of a caller's array are modelled by
  returning the caller's buffer contents after the call alongside the result.
* Python exceptions are modelled by `Except PyErr`; the exception class is the
  constructor and the message text the payload (format arguments interpolated
  into the original messages are dropped; no claim depends on them).
-/

/-- Python exception values raised by the module: every raise site in the
embedded code uses `ValueError`; `RuntimeError` (inconsistent callable units)
and `astropy.units.UnitConversionError` exist in the source's error taxonomy
and are included for the error-kind claims. -/
inductive PyErr where
  | valueError (msg : String)
  | runtimeError (msg : String)
  | unitConversionError (msg : String)
deriving DecidableEq

/-- The Python exception class of an error, forgetting the message text.  Two
errors are "programmatically distinguishable by kind" exactly when their kinds
differ. -/
inductive PyErrKind where
  | valueError
  | runtimeError
  | unitConversionError
deriving DecidableEq

/-- Map an exception to its class. -/
def PyErr.kind : PyErr → PyErrKind
  | .valueError _ => .valueError
  | .runtimeError _ => .runtimeError
  | .unitConversionError _ => .unitConversionError

/-- Model of `np.diff`: first differences of a 1-D array. -/
def npDiff (l : List ℚ) : List ℚ :=
  List.zipWith (fun a b => b - a) l (l.drop 1)

/-- Model of `np.searchsorted(a, v)` with the default `side='left'` on a sorted array:
the insertion index of `v`, i.e. the number of elements strictly below `v`. -/
def searchsorted (a : List ℚ) (v : ℚ) : Nat :=
  a.countP (fun x => decide (x < v))

/-- Model of `scipy.integrate.trapz(y=ys, x=xs)`: composite trapezoidal quadrature.
(The alternative `simps` integration method accepted by the source is not
exercised by any claim and is not modelled.) -/
def trapz (ys xs : List ℚ) : ℚ :=
  let pts := xs.zip ys
  (List.zipWith (fun p q => (q.1 - p.1) * (p.2 + q.2) / 2) pts (pts.drop 1)).sum

/-- Model of `scipy.interpolate.interp1d(xs, ys, kind='linear', bounds_error=False,
fill_value=0)` evaluated at `w`: locate the bracketing segment by binary
search (clipped to the first/last segment), evaluate the linear formula on
that segment, and replace out-of-bounds points by the fill value 0. -/
def interp1dLinear (xs ys : List ℚ) (w : ℚ) : ℚ :=
  let i := min (max (searchsorted xs w) 1) (xs.length - 1)
  let xlo := xs.getD (i - 1) 0
  let xhi := xs.getD i 0
  let ylo := ys.getD (i - 1) 0
  let yhi := ys.getD i 0
  let val := ylo + (yhi - ylo) / (xhi - xlo) * (w - xlo)
  if w < xs.getD 0 0 ∨ xs.getD (xs.length - 1) 0 < w then 0 else val

/-- Model of `validate_wavelength_array(wavelength, min_length)` (filters.py 292-335).
The input is a 1-D array with an optional unit tag (`unit`).  Returns the
`Except` result together with the contents of the caller's array after the
call: the source converts a unit-tagged input with an in-place
`wavelength_no_units *= wavelength.unit.to(default_wavelength_unit)`, and
`np.asarray` of a Quantity is a view of the caller's buffer, so the caller's
array holds the converted values afterwards; an untagged array is untouched.
The conversion happens before any check, and the 1-D shape check is
structural in the model (every `List ℚ` is 1-D). -/
def validate_wavelength_array (wavelength : List ℚ) (unit : Option ℚ)
    (min_length : Nat) : Except PyErr (List ℚ) × List ℚ :=
  let wavelength_no_units :=
    match unit with
    | some factor => wavelength.map (· * factor)
    | none => wavelength
  let buffer :=
    match unit with
    | some _ => wavelength_no_units
    | none => wavelength
  if wavelength_no_units.length < min_length then
    (.error (.valueError ("Minimum length is " ++ toString min_length ++ ".")), buffer)
  else if ¬ (npDiff wavelength_no_units).all (fun d => decide (0 < d)) then
    (.error (.valueError "Wavelength values must be strictly increasing."), buffer)
  else
    (.ok wavelength_no_units, buffer)

/-- Numeric value of `_hc_constant` (h·c in erg·Angstrom, filters.py 224-225).
The claims proved below do not depend on the exact numeric value. -/
def hcValue : ℚ := 19864458571489287 / 1000000000000000000000000

/-- Numeric value of `_ab_constant` (3631 Jy · c in
erg/(cm² s Angstrom) · Angstrom², filters.py 219-221).  The claims proved
below do not depend on the exact numeric value. -/
def abConstant : ℚ := 10885464 / 100000000

/-- Model of `ab_reference_flux(wavelength)` at the default magnitude 0
(filters.py 247-289): `flux = _ab_constant / wavelength²`. -/
def ab_reference_flux (lam : ℚ) : ℚ := abConstant / lam ^ 2

/-- Numeric core of `FilterResponse.convolve_with_function`
(filters.py 825-847): tabulate the function on the curve's wavelength grid,
multiply by the response, apply the photon weight `λ / hc` when requested,
and integrate with the trapezoid rule. -/
def convolveValue (wl rs : List ℚ) (f : ℚ → ℚ) (photon_weighted : Bool) : ℚ :=
  let integrand := List.zipWith (· * ·) (wl.map f) rs
  let integrand :=
    if photon_weighted then
      List.zipWith (fun y lam => y * (lam / hcValue)) integrand wl
    else integrand
  trapz integrand wl

/-- Model of `np.where(response > 0)[0]`: indices of the strictly positive entries. -/
def nonzeroIndices (rs : List ℚ) : List Nat :=
  (List.range rs.length).filter (fun i => decide (0 < rs.getD i 0))

/-- The zero-trimming step of `FilterResponse.__init__` (filters.py 628-633):
`start, stop = non_zero[0] - 1, non_zero[-1] + 2`, then slice both arrays to
`[start:stop]` when that shortens them. -/
def trimSlices (wl response : List ℚ) : List ℚ × List ℚ :=
  let non_zero := nonzeroIndices response
  let start := non_zero.getD 0 0 - 1
  let stop := non_zero.getD (non_zero.length - 1) 0 + 2
  if stop - start < wl.length then
    ((wl.drop start).take (stop - start), (response.drop start).take (stop - start))
  else (wl, response)

/-- A filter response curve after construction.  `_wavelength` and `response`
are the stored (trimmed) arrays; `effective_wavelength` and `ab_zeropoint`
are the derived quantities computed once by the constructor.  The metadata
dictionary, its `group_name`/`band_name` identifier checks and the
process-wide cache registration (filters.py 635-672) are not modelled: no
claim refers to them and they do not alter the numeric state. -/
structure FilterResponse where
  _wavelength : List ℚ
  response : List ℚ
  effective_wavelength : ℚ
  ab_zeropoint : ℚ
deriving DecidableEq

/-- Model of `FilterResponse.__init__` after wavelength validation (filters.py
616-667): length/shape checks on the response array, zero-trimming, and the
derived convolutions (`effective_wavelength` from the identity and constant-1
functions, `ab_zeropoint` from the AB reference spectrum, both
photon-weighted). -/
def FilterResponse.constructValidated (wl response : List ℚ) :
    Except PyErr FilterResponse :=
  if wl.length ≠ response.length then
    .error (.valueError "Arrays must have same length.")
  else if response.any (fun r => decide (r < 0)) then
    .error (.valueError "Response values must be non-negative.")
  else if response.all (fun r => decide (r = 0)) then
    .error (.valueError "Response values cannot all be zero.")
  else if ¬ (response.getD 0 1 = 0 ∧ response.getD (response.length - 1) 1 = 0) then
    .error (.valueError "Response must go to zero on both sides.")
  else
    let t := trimSlices wl response
    .ok ⟨t.1, t.2,
      convolveValue t.1 t.2 (fun lam => lam) true / convolveValue t.1 t.2 (fun _ => 1) true,
      convolveValue t.1 t.2 ab_reference_flux true⟩

/-- Model of `FilterResponse.__init__` (filters.py 612-672): validate the wavelength
array (minimum length 3, converting an optional unit tag), then run the
response checks, trimming and derived convolutions. -/
def FilterResponse.construct (wavelength : List ℚ) (unit : Option ℚ)
    (response : List ℚ) : Except PyErr FilterResponse :=
  match (validate_wavelength_array wavelength unit 3).1 with
  | .error e => .error e
  | .ok wl => FilterResponse.constructValidated wl response

/-- Model of `FilterResponse.__call__` (filters.py 675-708) for a scalar wavelength:
convert an optional unit tag to the canonical wavelength unit, then evaluate
the stored linear interpolator (which fills 0 outside the stored range). -/
def FilterResponse.call (fr : FilterResponse) (wavelength : ℚ)
    (unit : Option ℚ) : ℚ :=
  let w :=
    match unit with
    | some factor => wavelength * factor
    | none => wavelength
  interp1dLinear fr._wavelength fr.response w

/-- Model of `FilterResponse.convolve_with_function(function, photon_weighted, units)`
(filters.py 754-852) for a callable modelled as a value function `f` plus the
consistent unit tag `func_units` of its outputs.  Returns the numeric result
and the unit tag of the result.  When `units` is given and the function
returned a unit, the source computes the conversion factor
`converted = func_units.to(units)` purely as a convertibility check and never
multiplies it into the tabulated values (filters.py 829-838); the model keeps
that dead computation as `_converted`. -/
def FilterResponse.convolve_with_function (fr : FilterResponse) (f : ℚ → ℚ)
    (func_units : Option ℚ) (photon_weighted : Bool) (units : Option ℚ) :
    ℚ × Option ℚ :=
  let func_units2 :=
    match units, func_units with
    | some u, some fu =>
      let _converted := fu / u
      some fu
    | some u, none => some u
    | none, fu => fu
  let value := convolveValue fr._wavelength fr.response f photon_weighted
  (value, func_units2)

/-- Model of `FilterResponse.get_ab_maggies(spectrum)` for a callable spectrum
(filters.py 907-950): photon-weighted convolution with
`units=default_flux_unit` (canonical, factor 1), then the ratio of the raw
numeric value of the convolution to the raw numeric value of the stored AB
zeropoint (`convolution.value / self.ab_zeropoint.value`). -/
def FilterResponse.get_ab_maggies (fr : FilterResponse) (f : ℚ → ℚ)
    (func_units : Option ℚ) : ℚ :=
  let convolution := fr.convolve_with_function f func_units true (some 1)
  convolution.1 / fr.ab_zeropoint

/-- Start of the minimal covering slice of the input grid
(filters.py 1075-1078): `np.where(wavelength <= response_wavelength[0])[0][-1]`
when the input grid starts strictly below the filter, else 0.  On a sorted
array the last index satisfying `x ≤ a` is `countP (x ≤ a) - 1`. -/
def restrictStart (rwl wl : List ℚ) : Nat :=
  if wl.getD 0 0 < rwl.getD 0 0 then
    wl.countP (fun x => decide (x ≤ rwl.getD 0 0)) - 1
  else 0

/-- Stop of the minimal covering slice of the input grid
(filters.py 1079-1081): `1 + np.where(wavelength >= response_wavelength[-1])[0][0]`
when the input grid ends strictly above the filter, else `len(wavelength)`.
On a sorted array the first index satisfying `a ≤ x` is `countP (x < a)`. -/
def restrictStop (rwl wl : List ℚ) : Nat :=
  if rwl.getD (rwl.length - 1) 0 < wl.getD (wl.length - 1) 0 then
    wl.countP (fun x => decide (x < rwl.getD (rwl.length - 1) 0)) + 1
  else wl.length

/-- The restricted input grid (filters.py 1083-1086): slice `[start:stop]`
when it is a proper sub-slice, else the grid unchanged. -/
def restrictGrid (rwl wl : List ℚ) : List ℚ :=
  let start := restrictStart rwl wl
  let stop := restrictStop rwl wl
  if 0 < start ∨ stop < wl.length then (wl.drop start).take (stop - start)
  else wl

/-- Model of `np.searchsorted(self._wavelength, self.response._wavelength[1:])`
(filters.py 1095-1096): insertion positions in the restricted grid of every
filter wavelength except the first. -/
def insertIndexList (rwl wl' : List ℚ) : List Nat :=
  (rwl.drop 1).map (searchsorted wl')

/-- Model of `np.diff(insert_index) == 0` (filters.py 1097): flag positions where two
consecutive entries of `insert_index` coincide. -/
def undersampledFlags (rwl wl' : List ℚ) : List Bool :=
  let idx := insertIndexList rwl wl'
  List.zipWith (fun a b => decide (a = b)) idx (idx.drop 1)

/-- Model of `undersampled = 1 + np.where(undersampled)[0]` (filters.py 1099): indices
into the full filter wavelength array of the undersampled points. -/
def undersampledIndices (rwl wl' : List ℚ) : List Nat :=
  let flags := undersampledFlags rwl wl'
  ((List.range flags.length).filter (fun i => flags.getD i false)).map (· + 1)

/-- Model of `np.argsort` of an array, as a stable index sort.  All arrays sorted by
the source at this call site have pairwise distinct entries, for which every
correct sort agrees with the stable one. -/
def argsort (l : List ℚ) : List Nat :=
  (List.range l.length).mergeSort (fun i j => decide (l.getD i 0 ≤ l.getD j 0))

/-- Endpoint clamping of the quadrature grid (filters.py 1120-1125): replace
the first / last quadrature wavelength by the filter's own boundary
wavelength when it overruns it. -/
def clampEnds (quad rwl : List ℚ) : List ℚ :=
  let q1 :=
    if quad.getD 0 0 < rwl.getD 0 0 then quad.set 0 (rwl.getD 0 0) else quad
  if rwl.getD (rwl.length - 1) 0 < q1.getD (q1.length - 1) 0 then
    q1.set (q1.length - 1) (rwl.getD (rwl.length - 1) 0)
  else q1

/-- A constructed convolution plan (`FilterConvolution` object state).
`_wavelength` is the restricted input grid; `slice_start`/`slice_stop` model
`response_slice`; the three `interpolate_*` fields are `none` exactly when
the source stores `None` in them.  `input_units`/`output_units` carry the
unit tags; the symbolic unit algebra of the source (multiplying unit symbols,
never values) is represented by propagating the tag unchanged. -/
structure FilterConvolution where
  response : FilterResponse
  num_wavelength : Nat
  _wavelength : List ℚ
  slice_start : Nat
  slice_stop : Nat
  response_grid : List ℚ
  interpolate_wavelength : Option (List ℚ)
  interpolate_response : Option (List ℚ)
  interpolate_sort_order : Option (List Nat)
  quad_wavelength : List ℚ
  quad_weight : Option (List ℚ)
  input_units : Option ℚ
  output_units : Option ℚ
deriving DecidableEq

/-- Model of `FilterConvolution.__init__` after wavelength validation
(filters.py 1063-1142): extrapolation (coverage) check, restriction to the
minimal covering slice, resampling of the response onto it, the
undersampling test, optional construction of the interpolation nodes and the
merged quadrature grid, endpoint clamping, and photon-weight precomputation. -/
def FilterConvolution.constructValidated (response : FilterResponse)
    (wl : List ℚ) (photon_weighted interpolate : Bool) (units : Option ℚ) :
    Except PyErr FilterConvolution :=
  let rwl := response._wavelength
  if rwl.getD 0 0 < wl.getD 0 0 ∨
      wl.getD (wl.length - 1) 0 < rwl.getD (rwl.length - 1) 0 then
    .error (.valueError "Wavelengths do not cover filter response.")
  else
    let wl' := restrictGrid rwl wl
    let response_grid := wl'.map (interp1dLinear rwl response.response)
    if (undersampledFlags rwl wl').any id then
      if interpolate then
        let uidx := undersampledIndices rwl wl'
        let iw := uidx.map (fun i => rwl.getD i 0)
        let ir := uidx.map (fun i => response.response.getD i 0)
        let quad0 := wl' ++ iw
        let so := argsort quad0
        let quad := clampEnds (so.map (fun i => quad0.getD i 0)) rwl
        .ok ⟨response, wl.length, wl', restrictStart rwl wl, restrictStop rwl wl,
          response_grid, some iw, some ir, some so, quad,
          if photon_weighted then some (quad.map (fun q => q / hcValue)) else none,
          units, units⟩
      else
        .error (.valueError "Wavelengths undersample the response and interpolate is False.")
    else
      let quad := clampEnds wl' rwl
      .ok ⟨response, wl.length, wl', restrictStart rwl wl, restrictStop rwl wl,
        response_grid, none, none, none, quad,
        if photon_weighted then some (quad.map (fun q => q / hcValue)) else none,
        units, units⟩

/-- Model of `FilterConvolution.__init__` (filters.py 1053-1142): validate the input
wavelength grid (minimum length 2, converting an optional unit tag), then
run the plan construction. -/
def FilterConvolution.construct (response : FilterResponse)
    (wavelength : List ℚ) (unit : Option ℚ)
    (photon_weighted interpolate : Bool) (units : Option ℚ) :
    Except PyErr FilterConvolution :=
  match (validate_wavelength_array wavelength unit 2).1 with
  | .error e => .error e
  | .ok wl =>
    FilterConvolution.constructValidated response wl photon_weighted interpolate units

/-- Model of `FilterConvolution.__call__(values)` (filters.py 1145-1295) for a 1-D
values array with an optional unit tag, using the default `'trapz'` method.
Returns the numeric integral together with the contents of the caller's
values array after the call: when the values carry a unit, the source
converts them with an in-place `values_no_units *= values.unit.to(self.input_units)`
acting on a basic-indexing view `values[self.response_slice]` of the
caller's buffer, so the sliced portion of the caller's array is scaled by
the conversion factor.  The result unit tag applied when the input carries a
unit does not change the numeric value and is omitted. -/
def FilterConvolution.call (conv : FilterConvolution) (values : List ℚ)
    (unit : Option ℚ) : Except PyErr (ℚ × List ℚ) :=
  if values.length ≠ conv.num_wavelength then
    .error (.valueError "Expected values along axis.")
  else
    let sliced := (values.drop conv.slice_start).take (conv.slice_stop - conv.slice_start)
    let scaledAndBuffer : Except PyErr (List ℚ × List ℚ) :=
      match unit, conv.input_units with
      | some u, some iu =>
        let factor := u / iu
        let scaled := sliced.map (· * factor)
        .ok (scaled, values.take conv.slice_start ++ scaled ++ values.drop conv.slice_stop)
      | some _, none =>
        .error (.valueError "Must specify expected units for values with units.")
      | none, _ => .ok (sliced, values)
    match scaledAndBuffer with
    | .error e => .error e
    | .ok (vals, buffer) =>
      let integrand := List.zipWith (· * ·) vals conv.response_grid
      let integrand :=
        match conv.interpolate_wavelength, conv.interpolate_response,
            conv.interpolate_sort_order with
        | some iw, some ir, some so =>
          -- the source builds this interpolator with bounds_error=True; the
          -- nodes lie strictly inside the restricted grid, so the in-range
          -- linear formula is the whole behaviour
          let interpolated := iw.map (interp1dLinear conv._wavelength vals)
          let interpolated_integrand := List.zipWith (· * ·) interpolated ir
          let big := integrand ++ interpolated_integrand
          so.map (fun i => big.getD i 0)
        | _, _, _ => integrand
      let integrand :=
        match conv.quad_weight with
        | some qw => List.zipWith (· * ·) integrand qw
        | none => integrand
      .ok (trapz integrand conv.quad_wavelength, buffer)


/-- The interior filter wavelengths in the sense of the spec's sufficiency
test: every tabulated filter wavelength except the two boundary points. -/
def specInteriorWavelengths (rwl : List ℚ) : List ℚ :=
  (rwl.drop 1).take (rwl.length - 2)

/-- Claim C1's detection criterion, following the spec's words: some input
interval is undersampled when two or more consecutive interior filter
wavelengths (the two boundary points excluded) map to the same insertion
position in the restricted input grid. -/
def specInteriorCollision (rwl wl' : List ℚ) : Bool :=
  let pos := (specInteriorWavelengths rwl).map (searchsorted wl')
  (List.zipWith (fun a b => decide (a = b)) pos (pos.drop 1)).any id

/-- Claim C1's node selection, following the spec's words: the extra
interpolation nodes are all but the first occurrence in each run of
collisions, i.e. the interior wavelengths (indices 1..n-2) whose interior
predecessor has the same insertion position. -/
def specClaimNodes (rwl wl' : List ℚ) : List ℚ :=
  ((List.range' 2 (rwl.length - 3)).filter (fun j =>
    decide (searchsorted wl' (rwl.getD (j - 1) 0) =
      searchsorted wl' (rwl.getD j 0)))).map (fun j => rwl.getD j 0)

/-- The amended characterisation of the source's undersampling test at a
single index: filter wavelength `j` collides when it and its successor
(one of the indices 1..n-1, i.e. everything except the first point, the
upper boundary included) share an insertion position in the restricted
grid. -/
def amendedUndersampled (rwl wl' : List ℚ) (j : Nat) : Bool :=
  decide (searchsorted wl' (rwl.getD j 0) = searchsorted wl' (rwl.getD (j + 1) 0))

/-- Amended claim C1, node set: the filter wavelengths at indices 1..n-2
whose immediate successor (possibly the upper boundary point) shares their
insertion position — within each run of equal positions, all but the last. -/
def amendedNodes (rwl wl' : List ℚ) : List ℚ :=
  ((List.range' 1 (rwl.length - 2)).filter (amendedUndersampled rwl wl')).map
    (fun j => rwl.getD j 0)

/-- Amended claim C1, detection: undersampling is flagged when some filter
wavelength at an index 1..n-2 shares its insertion position with its
successor. -/
def amendedAny (rwl wl' : List ℚ) : Bool :=
  (List.range' 1 (rwl.length - 2)).any (amendedUndersampled rwl wl')

/-- The triangular filter of the spec's worked example: response 0 at 5000 A,
1 at 6000 A, 0 at 7000 A.  The derived fields are the constructor's
convolution expressions, kept unevaluated (no claim depends on their
values); `triFilter_construct` proves that the constructor returns exactly
this object. -/
def triFilter : FilterResponse :=
  ⟨[5000, 6000, 7000], [0, 1, 0],
    convolveValue [5000, 6000, 7000] [0, 1, 0] (fun lam => lam) true /
      convolveValue [5000, 6000, 7000] [0, 1, 0] (fun _ => 1) true,
    convolveValue [5000, 6000, 7000] [0, 1, 0] ab_reference_flux true⟩

/-- The constructor output for the triangular filter. -/
theorem triFilter_construct :
    FilterResponse.construct [5000, 6000, 7000] none [0, 1, 0] = .ok triFilter := by
  norm_num [FilterResponse.construct, FilterResponse.constructValidated,
    validate_wavelength_array, npDiff, trimSlices, nonzeroIndices,
    List.range_succ, List.countP_cons, triFilter]

/-- A filter whose construction input carries extra leading and trailing
zero-response samples: the constructor trims wavelengths (1, 2, 3, 4, 5) and
response (0, 0, 1, 0, 0) down to the stored arrays (2, 3, 4) and (0, 1, 0). -/
def exTrimFilter : FilterResponse :=
  ⟨[2, 3, 4], [0, 1, 0],
    convolveValue [2, 3, 4] [0, 1, 0] (fun lam => lam) true /
      convolveValue [2, 3, 4] [0, 1, 0] (fun _ => 1) true,
    convolveValue [2, 3, 4] [0, 1, 0] ab_reference_flux true⟩

/-- The constructor output for the trimmed example filter. -/
theorem exTrimFilter_construct :
    FilterResponse.construct [1, 2, 3, 4, 5] none [0, 0, 1, 0, 0] =
      .ok exTrimFilter := by
  norm_num [FilterResponse.construct, FilterResponse.constructValidated,
    validate_wavelength_array, npDiff, trimSlices, nonzeroIndices,
    List.range_succ, List.countP_cons, exTrimFilter]

/-- A filter whose only interior wavelength lies alone between two input
grid points: wavelengths (1, 5/2, 3) with response (0, 1, 0). -/
def narrowFilter : FilterResponse :=
  ⟨[1, 5/2, 3], [0, 1, 0],
    convolveValue [1, 5/2, 3] [0, 1, 0] (fun lam => lam) true /
      convolveValue [1, 5/2, 3] [0, 1, 0] (fun _ => 1) true,
    convolveValue [1, 5/2, 3] [0, 1, 0] ab_reference_flux true⟩

/-- The constructor output for the narrow example filter. -/
theorem narrowFilter_construct :
    FilterResponse.construct [1, 5/2, 3] none [0, 1, 0] = .ok narrowFilter := by
  norm_num [FilterResponse.construct, FilterResponse.constructValidated,
    validate_wavelength_array, npDiff, trimSlices, nonzeroIndices,
    List.range_succ, List.countP_cons, narrowFilter]

/-- The convolution plan of the worked mutation example: the triangular
filter convolved on its own grid, unweighted, interpolation disallowed (and
not needed), with canonical declared input units. `exPlanC2_construct`
proves that plan construction returns exactly this object. -/
def exPlanC2 : FilterConvolution :=
  ⟨triFilter, 3, [5000, 6000, 7000], 0, 3, [0, 1, 0], none, none, none,
    [5000, 6000, 7000], none, some 1, some 1⟩

/-- The constructor output for the mutation-example plan. -/
theorem exPlanC2_construct :
    FilterConvolution.construct triFilter [5000, 6000, 7000] none false false
      (some 1) = .ok exPlanC2 := by
  norm_num [FilterConvolution.construct, FilterConvolution.constructValidated,
    validate_wavelength_array, npDiff, restrictGrid, restrictStart, restrictStop,
    undersampledFlags, insertIndexList, searchsorted, clampEnds,
    interp1dLinear, List.countP_cons, exPlanC2, triFilter]

/-- Claim C1, as stated, fails on the code: for the filter with wavelengths
(1, 5/2, 3) and the input grid (1, 2, 3), no two interior filter wavelengths
collide (there is only one interior wavelength) and the spec's node set is
empty, yet plan construction with interpolation disallowed raises the
undersampling error, and with interpolation allowed it adds the node 5/2 —
because the source's `searchsorted` call includes the upper boundary
wavelength 3, whose insertion position collides with that of 5/2. -/
theorem C1_counterexample :
    specInteriorCollision narrowFilter._wavelength
        (restrictGrid narrowFilter._wavelength [1, 2, 3]) = false ∧
    specClaimNodes narrowFilter._wavelength
        (restrictGrid narrowFilter._wavelength [1, 2, 3]) = [] ∧
    FilterConvolution.construct narrowFilter [1, 2, 3] none false false none =
      .error (.valueError
        "Wavelengths undersample the response and interpolate is False.") ∧
    (FilterConvolution.construct narrowFilter [1, 2, 3] none false true
        none).toOption.map FilterConvolution.interpolate_wavelength =
      some (some [5/2]) := by
  refine ⟨?_, ?_, ?_, ?_⟩ <;>
    norm_num [specInteriorCollision, specInteriorWavelengths, specClaimNodes,
      FilterConvolution.construct, FilterConvolution.constructValidated,
      validate_wavelength_array, npDiff, restrictGrid, restrictStart,
      restrictStop, undersampledFlags, insertIndexList, undersampledIndices,
      searchsorted, List.countP_cons, List.range_succ, Except.toOption,
      narrowFilter]

/-- Claim C2 (code bug): evaluating the same plan twice with the same values
array is not idempotent when the values carry a convertible unit.  For the
plan `exPlanC2` (triangular filter on its own grid, declared canonical input
units), the values array (1, 1, 1) tagged with a unit of conversion factor
1/10 (e.g. erg/(cm² s nm)) yields 100 and leaves the caller's buffer scaled
in place to (1/10, 1/10, 1/10); the second call on that same buffer yields
10 ≠ 100 and scales the buffer again. -/
theorem C2_mutation_demo :
    FilterConvolution.construct triFilter [5000, 6000, 7000] none false false
      (some 1) = .ok exPlanC2 ∧
    exPlanC2.call [1, 1, 1] (some (1/10)) = .ok (100, [1/10, 1/10, 1/10]) ∧
    exPlanC2.call [1/10, 1/10, 1/10] (some (1/10)) =
      .ok (10, [1/100, 1/100, 1/100]) ∧
    (100 : ℚ) ≠ 10 := by
  refine ⟨exPlanC2_construct, ?_, ?_, by norm_num⟩ <;>
    norm_num [FilterConvolution.call, trapz, exPlanC2]

/-- Claim C3, as stated, fails on the code: validating the array
(5000, 6000) tagged with a unit of conversion factor 10 (nanometers) scales
the caller's buffer in place to (50000, 60000). -/
theorem C3_counterexample :
    (validate_wavelength_array [5000, 6000] (some 10) 0).2 ≠ [5000, 6000] := by
  norm_num [validate_wavelength_array, npDiff]

/-- Claim C3 amended: an input without a unit tag is never modified and is
returned as-is on success; a unit-tagged input array is converted to
canonical units in place, so the caller's buffer ends up scaled by the
conversion factor, and the successful result holds exactly those converted
values. -/
theorem C3_amended (wavelength : List ℚ) (unit : Option ℚ) (min_length : Nat) :
    (validate_wavelength_array wavelength unit min_length).2 =
      (match unit with
       | some factor => wavelength.map (· * factor)
       | none => wavelength) ∧
    ∀ wl, (validate_wavelength_array wavelength unit min_length).1 = .ok wl →
      wl =
        (match unit with
         | some factor => wavelength.map (· * factor)
         | none => wavelength) := by
  constructor
  · cases unit <;>
      · simp only [validate_wavelength_array]
        split <;> [skip; split] <;> rfl
  · intro wl h
    cases unit <;>
      · simp only [validate_wavelength_array] at h
        split at h <;> [skip; split at h] <;> simp_all

/-- Witness for the amended claim C3 at the concrete input of the
counterexample: the buffer after the call holds the converted values and the
successful result equals them. -/
theorem C3_amended_witness :
    (validate_wavelength_array [5000, 6000] (some 10) 0).2 =
      [5000, 6000].map (· * 10) ∧
    ([50000, 60000] : List ℚ) = [5000, 6000].map (· * 10) :=
  ⟨(C3_amended [5000, 6000] (some 10) 0).1,
    (C3_amended [5000, 6000] (some 10) 0).2 [50000, 60000]
      (by norm_num [validate_wavelength_array, npDiff])⟩

/-- Claim C4, as stated, fails on the code: the undersampling failure and the
coverage (validation) failure are raised as the same exception class
`ValueError`, so the two conditions are not programmatically distinguishable
by error kind — only the message text differs. -/
theorem C4_counterexample :
    FilterConvolution.construct triFilter [5000, 7000] none true false none =
      .error (.valueError
        "Wavelengths undersample the response and interpolate is False.") ∧
    FilterConvolution.construct triFilter [5500, 8000] none true false none =
      .error (.valueError "Wavelengths do not cover filter response.") ∧
    PyErr.kind (.valueError
        "Wavelengths undersample the response and interpolate is False.") =
      PyErr.kind (.valueError "Wavelengths do not cover filter response.") := by
  refine ⟨?_, ?_, rfl⟩ <;>
    norm_num [FilterConvolution.construct, FilterConvolution.constructValidated,
      validate_wavelength_array, npDiff, restrictGrid, restrictStart,
      restrictStop, undersampledFlags, insertIndexList, searchsorted,
      List.countP_cons, triFilter]

/-- Claim C8: a constructed filter curve evaluates to exactly 0 at any
wavelength strictly below its first stored wavelength or strictly above its
last stored wavelength (the stored interpolator fills 0 out of bounds). -/
theorem C8_zero_outside (wavelength : List ℚ) (unit : Option ℚ)
    (response : List ℚ) (fr : FilterResponse) (lam : ℚ)
    (h : FilterResponse.construct wavelength unit response = .ok fr)
    (hout : lam < fr._wavelength.getD 0 0 ∨
      fr._wavelength.getD (fr._wavelength.length - 1) 0 < lam) :
    fr.call lam none = 0 := by
  simp only [FilterResponse.call, interp1dLinear]
  rw [if_pos hout]

/-- Witness for claim C8: the trimmed filter built from wavelengths
(1, 2, 3, 4, 5) and response (0, 0, 1, 0, 0) stores the range [2, 4], and
evaluating it at 3/2 — inside the original range but outside the trimmed
one — returns 0. -/
theorem C8_zero_outside_witness : exTrimFilter.call (3/2) none = 0 :=
  C8_zero_outside [1, 2, 3, 4, 5] none [0, 0, 1, 0, 0] exTrimFilter (3/2)
    exTrimFilter_construct (Or.inl (by norm_num [exTrimFilter]))

/-- Claim C9: the triangular filter with response (0, 1, 0) at wavelengths
(5000, 6000, 7000), convolved unweighted with the constant function 1 by
trapezoidal quadrature, gives exactly 1000 (the area of the triangle) and no
unit tag. -/
theorem C9_triangle_area :
    (FilterResponse.construct [5000, 6000, 7000] none [0, 1, 0]).map
      (fun fr => fr.convolve_with_function (fun _ => 1) none false none) =
    .ok (1000, none) := by
  rw [triFilter_construct]
  norm_num [Except.map, FilterResponse.convolve_with_function, convolveValue,
    trapz, triFilter]

/-- Claim C10: for a callable spectrum, `get_ab_maggies` returns the same
number whether the callable's outputs are tagged with any convertible flux
unit or carry no unit at all: the declared-units check computes the
conversion factor only to validate convertibility and never applies it to
the values, and the maggies ratio divides the raw convolution value by the
raw zeropoint value. -/
theorem C10_maggies_units_ignored (fr : FilterResponse) (f : ℚ → ℚ) (u : ℚ) :
    fr.get_ab_maggies f (some u) = fr.get_ab_maggies f none ∧
    fr.get_ab_maggies f (some u) =
      (fr.convolve_with_function f (some u) true (some 1)).1 / fr.ab_zeropoint :=
  ⟨rfl, rfl⟩

/-- Helper: `getD` at an in-range index does not depend on the default. -/
theorem getD_default_irrel (l : List ℚ) (i : Nat) (hi : i < l.length)
    (d d' : ℚ) : l.getD i d = l.getD i d' := by
  rw [List.getD_eq_getElem l d hi, List.getD_eq_getElem l d' hi]

/-- Helper: `getD` at an in-range index is a member of the list. -/
theorem getD_mem {α : Type} (l : List α) (i : Nat) (d : α)
    (hi : i < l.length) : l.getD i d ∈ l := by
  rw [List.getD_eq_getElem l d hi]
  exact List.getElem_mem hi

/-- Helper: strict pairwise order gives strict order of entries. -/
theorem pairwise_getD_lt (l : List ℚ) (h : l.Pairwise (· < ·)) (i j : Nat)
    (hij : i < j) (hj : j < l.length) : l.getD i 0 < l.getD j 0 := by
  have hi : i < l.length := lt_trans hij hj
  rw [List.getD_eq_getElem l 0 hi, List.getD_eq_getElem l 0 hj]
  exact List.pairwise_iff_getElem.mp h i j hi hj hij

/-- Helper: strict pairwise order gives monotone entries. -/
theorem pairwise_getD_le (l : List ℚ) (h : l.Pairwise (· < ·)) (i j : Nat)
    (hij : i ≤ j) (hj : j < l.length) : l.getD i 0 ≤ l.getD j 0 := by
  rcases Nat.lt_or_ge i j with hlt | hge
  · exact le_of_lt (pairwise_getD_lt l h i j hlt hj)
  · have : i = j := Nat.le_antisymm hij hge
    rw [this]

/-- Helper: in a `≤`-sorted list, the first entry is a lower bound of every
member. -/
theorem pairwise_le_head {α : Type} [Preorder α] (l : List α) (d : α)
    (h : l.Pairwise (· ≤ ·)) {x : α} (hx : x ∈ l) : l.getD 0 d ≤ x := by
  cases l with
  | nil => cases hx
  | cons a t =>
    rcases List.mem_cons.mp hx with rfl | hxt
    · simp
    · exact (List.pairwise_cons.mp h).1 x hxt

/-- Helper: in a `≤`-sorted list, the last entry is an upper bound of every
member. -/
theorem pairwise_le_last {α : Type} [Preorder α] (l : List α) (d : α)
    (h : l.Pairwise (· ≤ ·)) : ∀ x ∈ l, x ≤ l.getD (l.length - 1) d := by
  induction l with
  | nil => intro x hx; cases hx
  | cons a t ih =>
    intro x hx
    cases t with
    | nil =>
      rcases List.mem_cons.mp hx with rfl | hxt
      · simp
      · cases hxt
    | cons b t2 =>
      have hlen : (a :: b :: t2).length - 1 = ((b :: t2).length - 1) + 1 := by
        simp
      rw [hlen, List.getD_cons_succ]
      rcases List.mem_cons.mp hx with rfl | hxt
      · exact le_trans
          ((List.pairwise_cons.mp h).1 b (List.mem_cons_self b t2))
          (ih (List.pairwise_cons.mp h).2 b (List.mem_cons_self b t2))
      · exact ih (List.pairwise_cons.mp h).2 x hxt

/-- Helper: the strict-increase check of `validate_wavelength_array`
(`np.all(np.diff(w) > 0)`) holds exactly for chains of `<`. -/
theorem npDiff_all_pos_iff (l : List ℚ) :
    ((npDiff l).all (fun d => decide (0 < d)) = true) ↔ l.Chain' (· < ·) := by
  induction l with
  | nil => simp [npDiff]
  | cons a t ih =>
    cases t with
    | nil => simp [npDiff]
    | cons b t2 =>
      have hstep : npDiff (a :: b :: t2) = (b - a) :: npDiff (b :: t2) := rfl
      rw [hstep, List.all_cons, List.chain'_cons, ← ih]
      simp [sub_pos, Bool.and_eq_true]

/-- Helper: facts recovered from a successful wavelength validation: the
returned array is the unit-converted input, it meets the minimum length and
it is strictly increasing. -/
theorem validate_ok_facts (wavelength : List ℚ) (unit : Option ℚ)
    (min_length : Nat) (wl : List ℚ)
    (h : (validate_wavelength_array wavelength unit min_length).1 = .ok wl) :
    min_length ≤ wl.length ∧ wl.Pairwise (· < ·) := by
  simp only [validate_wavelength_array] at h
  split at h
  · cases h
  · split at h
    · cases h
    · rename_i hlen hmono
      cases h
      refine ⟨Nat.le_of_not_lt hlen, ?_⟩
      exact List.chain'_iff_pairwise.mp
        ((npDiff_all_pos_iff _).mp (not_not.mp hmono))

/-- Helper: the first `i < countP (· ≤ a)` entries of a sorted list are `≤ a`;
in particular the entry at `countP (· ≤ a) - 1`. -/
theorem sorted_getD_countP_le (l : List ℚ) (a : ℚ) (h : l.Pairwise (· < ·))
    (hpos : 0 < l.countP (fun x => decide (x ≤ a))) :
    l.getD (l.countP (fun x => decide (x ≤ a)) - 1) 0 ≤ a := by
  induction l with
  | nil => simp [List.countP_nil] at hpos
  | cons x t ih =>
    by_cases hx : x ≤ a
    · have hxd : decide (x ≤ a) = true := decide_eq_true hx
      rw [List.countP_cons, hxd, if_pos rfl] at hpos ⊢
      rcases Nat.eq_zero_or_pos (t.countP (fun x => decide (x ≤ a))) with h0 | hp
      · simp [h0, hx]
      · have hidx : t.countP (fun x => decide (x ≤ a)) + 1 - 1 =
            (t.countP (fun x => decide (x ≤ a)) - 1) + 1 := by omega
        rw [hidx, List.getD_cons_succ]
        exact ih (List.pairwise_cons.mp h).2 hp
    · have hz : t.countP (fun x => decide (x ≤ a)) = 0 := by
        rw [List.countP_eq_zero]
        intro y hy
        have hxy : x < y := (List.pairwise_cons.mp h).1 y hy
        simp only [decide_eq_true_eq]
        intro hya
        exact hx (le_of_lt (lt_of_lt_of_le hxy hya))
      have hxd : decide (x ≤ a) = false := decide_eq_false hx
      rw [List.countP_cons, hxd, if_neg (by simp), hz] at hpos
      simp at hpos

/-- Helper: in a sorted list the entry at index `countP (· < a)` (the first
entry not below `a`), when it exists, is `≥ a`. -/
theorem sorted_getD_countP_lt (l : List ℚ) (a : ℚ) (h : l.Pairwise (· < ·))
    (hlen : l.countP (fun x => decide (x < a)) < l.length) :
    a ≤ l.getD (l.countP (fun x => decide (x < a))) 0 := by
  induction l with
  | nil => simp at hlen
  | cons x t ih =>
    by_cases hx : x < a
    · have hxd : decide (x < a) = true := decide_eq_true hx
      rw [List.countP_cons, hxd, if_pos rfl] at hlen ⊢
      rw [List.getD_cons_succ]
      exact ih (List.pairwise_cons.mp h).2 (by simpa using hlen)
    · have hz : t.countP (fun x => decide (x < a)) = 0 := by
        rw [List.countP_eq_zero]
        intro y hy
        have hxy : x < y := (List.pairwise_cons.mp h).1 y hy
        simp only [decide_eq_true_eq]
        intro hya
        exact lt_asymm hxy (lt_of_lt_of_le hya (le_of_not_lt hx))
      have hxd : decide (x < a) = false := decide_eq_false hx
      rw [List.countP_cons, hxd, if_neg (by simp), hz]
      simp only [Nat.add_zero, List.getD_cons_zero]
      exact le_of_not_lt hx

/-- Helper: entry `k` of the slice `l[s : s+n]` is entry `s + k` of `l`. -/
theorem getD_drop_take (l : List ℚ) (s n k : Nat) (d : ℚ) (hk : k < n) :
    ((l.drop s).take n).getD k d = l.getD (s + k) d := by
  rw [List.getD_eq_getElem?_getD, List.getD_eq_getElem?_getD,
    List.getElem?_take, if_pos hk, List.getElem?_drop]

/-- Helper: length of the slice `l[s : stop]` when `stop ≤ l.length`. -/
theorem length_drop_take (l : List ℚ) (s stop : Nat) (hstop : stop ≤ l.length) :
    ((l.drop s).take (stop - s)).length = stop - s := by
  simp only [List.length_take, List.length_drop]
  omega

/-- Helper: the restricted grid produced by plan construction, under the
facts available after a passed coverage check: it keeps at least two points,
stays sorted, starts at or below the filter's first wavelength and ends at
or above the filter's last wavelength. -/
theorem restrictGrid_facts (rwl wl : List ℚ) (hw : wl.Pairwise (· < ·))
    (h1 : wl.getD 0 0 ≤ rwl.getD 0 0)
    (h2 : rwl.getD (rwl.length - 1) 0 ≤ wl.getD (wl.length - 1) 0)
    (hr : rwl.getD 0 0 < rwl.getD (rwl.length - 1) 0)
    (hwlen : 2 ≤ wl.length) :
    2 ≤ (restrictGrid rwl wl).length ∧
    (restrictGrid rwl wl).Pairwise (· < ·) ∧
    (restrictGrid rwl wl).getD 0 0 ≤ rwl.getD 0 0 ∧
    rwl.getD (rwl.length - 1) 0 ≤
      (restrictGrid rwl wl).getD ((restrictGrid rwl wl).length - 1) 0 := by
  have hS : restrictStart rwl wl < wl.length ∧
      wl.getD (restrictStart rwl wl) 0 ≤ rwl.getD 0 0 := by
    unfold restrictStart
    split
    · rename_i hlt
      have hpos : 0 < wl.countP (fun x => decide (x ≤ rwl.getD 0 0)) := by
        rw [List.countP_pos_iff]
        exact ⟨wl.getD 0 0, getD_mem wl 0 0 (by omega),
          decide_eq_true (le_of_lt hlt)⟩
      have hle : wl.countP (fun x => decide (x ≤ rwl.getD 0 0)) ≤ wl.length :=
        List.countP_le_length _
      exact ⟨by omega, sorted_getD_countP_le wl _ hw hpos⟩
    · exact ⟨by omega, h1⟩
  have hT : 1 ≤ restrictStop rwl wl ∧ restrictStop rwl wl ≤ wl.length ∧
      rwl.getD (rwl.length - 1) 0 ≤ wl.getD (restrictStop rwl wl - 1) 0 := by
    unfold restrictStop
    split
    · rename_i hlt
      have hcnt : wl.countP (fun x => decide (x < rwl.getD (rwl.length - 1) 0)) <
          wl.length := by
        by_contra hge
        have heq : wl.countP (fun x => decide (x < rwl.getD (rwl.length - 1) 0)) =
            wl.length := le_antisymm (List.countP_le_length _) (le_of_not_lt hge)
        have := (List.countP_eq_length).mp heq
          (wl.getD (wl.length - 1) 0) (getD_mem wl _ 0 (by omega))
        exact absurd h2 (not_le.mpr (of_decide_eq_true this))
      refine ⟨by omega, by omega, ?_⟩
      simpa using sorted_getD_countP_lt wl _ hw hcnt
    · exact ⟨by omega, le_refl _, h2⟩
  have hss : restrictStart rwl wl + 2 ≤ restrictStop rwl wl := by
    by_contra hc
    have hle : restrictStop rwl wl - 1 ≤ restrictStart rwl wl := by omega
    have := pairwise_getD_le wl hw (restrictStop rwl wl - 1)
      (restrictStart rwl wl) hle hS.1
    have hba := le_trans hT.2.2 (le_trans this hS.2)
    exact absurd hr (not_lt.mpr hba)
  simp only [restrictGrid]
  split
  · constructor
    · rw [length_drop_take wl _ _ hT.2.1]; omega
    · refine ⟨?_, ?_, ?_⟩
      · exact List.Pairwise.sublist
          ((List.take_sublist _ _).trans (List.drop_sublist _ _)) hw
      · rw [getD_drop_take wl _ _ 0 0 (by omega), Nat.add_zero]
        exact hS.2
      · rw [length_drop_take wl _ _ hT.2.1,
          getD_drop_take wl _ _ _ 0 (by omega)]
        have hidx : restrictStart rwl wl + (restrictStop rwl wl -
            restrictStart rwl wl - 1) = restrictStop rwl wl - 1 := by omega
        rw [hidx]
        exact hT.2.2
  · exact ⟨hwlen, hw, h1, h2⟩

/-- Helper: membership in `nonzeroIndices`. -/
theorem mem_nonzeroIndices (rs : List ℚ) (i : Nat) :
    i ∈ nonzeroIndices rs ↔ i < rs.length ∧ 0 < rs.getD i 0 := by
  simp [nonzeroIndices, List.mem_filter, List.mem_range]

/-- Helper: `nonzeroIndices` is strictly increasing. -/
theorem nonzeroIndices_pairwise (rs : List ℚ) :
    (nonzeroIndices rs).Pairwise (· < ·) :=
  List.Pairwise.sublist (List.filter_sublist _) (List.pairwise_lt_range _)

/-- Helper: the response facts recovered from the checks of
`FilterResponse.constructValidated`, expressed at the level of `trimSlices`:
the trimmed response keeps exactly one zero at each edge, keeps at least
three samples, and the trimmed wavelength array keeps the same length. -/
theorem trimSlices_facts (wl response : List ℚ)
    (hlen : wl.length = response.length)
    (hnn : ∀ x ∈ response, 0 ≤ x)
    (hex : ∃ x ∈ response, ¬ x = 0)
    (h0 : response.getD 0 1 = 0)
    (hlast : response.getD (response.length - 1) 1 = 0)
    (hmin : 3 ≤ wl.length) :
    (trimSlices wl response).2.getD 0 1 = 0 ∧
    (trimSlices wl response).2.getD ((trimSlices wl response).2.length - 1) 1 = 0 ∧
    0 < (trimSlices wl response).2.getD 1 0 ∧
    0 < (trimSlices wl response).2.getD ((trimSlices wl response).2.length - 2) 0 ∧
    3 ≤ (trimSlices wl response).2.length ∧
    (trimSlices wl response).1.length = (trimSlices wl response).2.length := by
  set n := response.length with hn
  have hn0 : 0 < n := by omega
  -- the nonzero index list and its extremes
  set nz := nonzeroIndices response with hnz
  have hnzne : nz ≠ [] := by
    rcases hex with ⟨x, hxm, hx0⟩
    rcases List.mem_iff_getElem.mp hxm with ⟨i, hi, rfl⟩
    have : i ∈ nz := (mem_nonzeroIndices response i).mpr
      ⟨hi, by
        rw [List.getD_eq_getElem response 0 hi]
        exact lt_of_le_of_ne (hnn _ (List.getElem_mem hi)) (Ne.symm hx0)⟩
    exact List.ne_nil_of_mem this
  have hnzlen : 0 < nz.length := List.length_pos.mpr hnzne
  set first := nz.getD 0 0 with hfirst
  set last := nz.getD (nz.length - 1) 0 with hlast2
  have hfm : first ∈ nz := getD_mem nz 0 0 hnzlen
  have hlm : last ∈ nz := getD_mem nz _ 0 (by omega)
  have hf := (mem_nonzeroIndices response first).mp hfm
  have hl := (mem_nonzeroIndices response last).mp hlm
  have hfl : first ≤ last := by
    have := pairwise_le_head nz 0
      (List.Pairwise.imp le_of_lt (nonzeroIndices_pairwise response)) hlm
    exact this
  -- indices below `first` and above `last` carry zero response
  have hbelow : ∀ j, j < first → response.getD j 0 = 0 := by
    intro j hj
    have hjlen : j < n := lt_trans hj hf.1
    by_contra hne
    have hpos : 0 < response.getD j 0 :=
      lt_of_le_of_ne (by
        rw [List.getD_eq_getElem response 0 hjlen]
        exact hnn _ (List.getElem_mem hjlen)) (Ne.symm hne)
    have hjm : j ∈ nz := (mem_nonzeroIndices response j).mpr ⟨hjlen, hpos⟩
    have := pairwise_le_head nz 0
      (List.Pairwise.imp le_of_lt (nonzeroIndices_pairwise response)) hjm
    omega
  have habove : ∀ j, last < j → j < n → response.getD j 0 = 0 := by
    intro j hj hjlen
    by_contra hne
    have hpos : 0 < response.getD j 0 :=
      lt_of_le_of_ne (by
        rw [List.getD_eq_getElem response 0 hjlen]
        exact hnn _ (List.getElem_mem hjlen)) (Ne.symm hne)
    have hjm : j ∈ nz := (mem_nonzeroIndices response j).mpr ⟨hjlen, hpos⟩
    have := pairwise_le_last nz 0
      (List.Pairwise.imp le_of_lt (nonzeroIndices_pairwise response)) j hjm
    omega
  -- the boundary zeros push the extremes inward
  have hr0 : response.getD 0 0 = 0 := by
    rw [getD_default_irrel response 0 hn0 0 1]; exact h0
  have hrl : response.getD (n - 1) 0 = 0 := by
    rw [getD_default_irrel response (n - 1) (by omega) 0 1]; exact hlast
  have hf1 : 1 ≤ first := by
    rcases Nat.eq_zero_or_pos first with h0' | h1'
    · rw [h0'] at hf; rw [hr0] at hf; exact absurd hf.2 (lt_irrefl 0)
    · exact h1'
  have hl2 : last ≤ n - 2 := by
    have hlt : last < n := hl.1
    rcases Nat.lt_or_ge last (n - 1) with hcase | hcase
    · omega
    · have : last = n - 1 := by omega
      rw [this, hrl] at hl
      exact absurd hl.2 (lt_irrefl 0)
  have hwln : wl.length = n := hlen
  have hn3 : 3 ≤ n := by omega
  clear_value nz first last
  simp only [trimSlices]
  rw [← hnz, ← hfirst, ← hlast2]
  split
  · -- proper trim: both arrays are sliced to [first-1 : last+2]
    rename_i htrim
    dsimp only
    have hstop : last + 2 ≤ n := by omega
    have hlen2 : ((response.drop (first - 1)).take ((last + 2) - (first - 1))).length
        = last - first + 3 := by
      rw [length_drop_take response _ _ (by omega)]; omega
    have hlen1 : ((wl.drop (first - 1)).take ((last + 2) - (first - 1))).length
        = last - first + 3 := by
      rw [length_drop_take wl _ _ (by omega)]; omega
    refine ⟨?_, ?_, ?_, ?_, ?_, ?_⟩
    · rw [getD_drop_take response _ _ 0 1 (by omega), Nat.add_zero,
        getD_default_irrel response (first - 1) (by omega) 1 0]
      exact hbelow (first - 1) (by omega)
    · rw [hlen2, getD_drop_take response _ _ _ 1 (by omega)]
      have hidx : (first - 1) + (last - first + 3 - 1) = last + 1 := by omega
      rw [hidx, getD_default_irrel response (last + 1) (by omega) 1 0]
      exact habove (last + 1) (by omega) (by omega)
    · rw [getD_drop_take response _ _ 1 0 (by omega)]
      have hidx : (first - 1) + 1 = first := by omega
      rw [hidx]
      exact hf.2
    · rw [hlen2, getD_drop_take response _ _ _ 0 (by omega)]
      have hidx : (first - 1) + (last - first + 3 - 2) = last := by omega
      rw [hidx]
      exact hl.2
    · rw [hlen2]; omega
    · rw [hlen1, hlen2]
  · -- no trim: the input already has exactly one zero on each side
    rename_i htrim
    dsimp only
    have hse : first = 1 ∧ last = n - 2 := by omega
    refine ⟨h0, ?_, ?_, ?_, by omega, hlen⟩
    · rw [← hn]; exact hlast
    · have h1f : (1 : Nat) = first := by omega
      rw [h1f]; exact hf.2
    · have hlf : response.length - 2 = last := by rw [← hn]; omega
      rw [hlf]; exact hl.2
/-- Helper: inversion of `FilterResponse.constructValidated`: success recovers
the response checks and identifies the stored arrays as the trim slices. -/
theorem response_constructValidated_ok (wl response : List ℚ)
    (fr : FilterResponse)
    (h : FilterResponse.constructValidated wl response = .ok fr) :
    wl.length = response.length ∧
    (∀ x ∈ response, 0 ≤ x) ∧
    (∃ x ∈ response, ¬ x = 0) ∧
    response.getD 0 1 = 0 ∧ response.getD (response.length - 1) 1 = 0 ∧
    fr._wavelength = (trimSlices wl response).1 ∧
    fr.response = (trimSlices wl response).2 := by
  simp only [FilterResponse.constructValidated] at h
  split at h
  · cases h
  · split at h
    · cases h
    · split at h
      · cases h
      · split at h
        · cases h
        · rename_i hlen hneg hzero hends
          cases h
          refine ⟨not_ne_iff.mp hlen, ?_, ?_, (not_not.mp hends).1,
            (not_not.mp hends).2, rfl, rfl⟩
          · intro x hx
            by_contra hneg2
            exact hneg (List.any_eq_true.mpr
              ⟨x, hx, decide_eq_true (lt_of_not_le hneg2)⟩)
          · by_contra hall
            push_neg at hall
            exact hzero (List.all_eq_true.mpr fun x hx =>
              decide_eq_true (hall x hx))

/-- Helper: inversion of `FilterResponse.construct` through the wavelength
validation. -/
theorem response_construct_ok (wavelength : List ℚ) (unit : Option ℚ)
    (response : List ℚ) (fr : FilterResponse)
    (h : FilterResponse.construct wavelength unit response = .ok fr) :
    ∃ wl, (validate_wavelength_array wavelength unit 3).1 = .ok wl ∧
      FilterResponse.constructValidated wl response = .ok fr := by
  unfold FilterResponse.construct at h
  cases hv : (validate_wavelength_array wavelength unit 3).1 with
  | error e => rw [hv] at h; cases h
  | ok wl => rw [hv] at h; exact ⟨wl, rfl, h⟩

/-- Claim C6: after a successful `FilterResponse` construction the stored
response keeps exactly one zero-response sample at each edge — the first and
last stored values are zero while the second and second-to-last are strictly
positive — and the stored wavelength array is trimmed to the same length
(at least 3). -/
theorem C6_trim_invariant (wavelength : List ℚ) (unit : Option ℚ)
    (response : List ℚ) (fr : FilterResponse)
    (h : FilterResponse.construct wavelength unit response = .ok fr) :
    fr.response.getD 0 1 = 0 ∧
    fr.response.getD (fr.response.length - 1) 1 = 0 ∧
    0 < fr.response.getD 1 0 ∧
    0 < fr.response.getD (fr.response.length - 2) 0 ∧
    3 ≤ fr.response.length ∧
    fr._wavelength.length = fr.response.length := by
  rcases response_construct_ok wavelength unit response fr h with ⟨wl, hv, hcv⟩
  rcases validate_ok_facts wavelength unit 3 wl hv with ⟨hmin, _⟩
  rcases response_constructValidated_ok wl response fr hcv with
    ⟨hlen, hnn, hex, h0, hlast, hwfr, hrfr⟩
  rw [hwfr, hrfr]
  exact trimSlices_facts wl response hlen hnn hex h0 hlast hmin

/-- Witness for claim C6: the constructor input with wavelengths
(1, 2, 3, 4, 5) and response (0, 0, 1, 0, 0) has an extra zero on each side;
the stored arrays keep exactly one. -/
theorem C6_trim_invariant_witness :
    exTrimFilter.response.getD 0 1 = 0 ∧
    exTrimFilter.response.getD (exTrimFilter.response.length - 1) 1 = 0 ∧
    0 < exTrimFilter.response.getD 1 0 ∧
    0 < exTrimFilter.response.getD (exTrimFilter.response.length - 2) 0 ∧
    3 ≤ exTrimFilter.response.length ∧
    exTrimFilter._wavelength.length = exTrimFilter.response.length :=
  C6_trim_invariant [1, 2, 3, 4, 5] none [0, 0, 1, 0, 0] exTrimFilter
    exTrimFilter_construct

/-- Helper: `set` then read back at the same (in-range) index. -/
theorem getD_set_self (l : List ℚ) (i : Nat) (x d : ℚ) (hi : i < l.length) :
    (l.set i x).getD i d = x := by
  rw [List.getD_eq_getElem?_getD, List.getElem?_set, if_pos rfl, if_pos hi]
  rfl

/-- Helper: `set` leaves other indices unchanged. -/
theorem getD_set_other (l : List ℚ) (i j : Nat) (x d : ℚ) (hij : i ≠ j) :
    (l.set i x).getD j d = l.getD j d := by
  rw [List.getD_eq_getElem?_getD, List.getElem?_set, if_neg hij,
    ← List.getD_eq_getElem?_getD]

/-- Helper: the endpoint clamp yields exactly the filter's boundary
wavelengths whenever the quadrature grid starts at or below the filter's
first wavelength and ends at or above its last wavelength. -/
theorem clampEnds_facts (quad rwl : List ℚ) (hq2 : 2 ≤ quad.length)
    (hhead : quad.getD 0 0 ≤ rwl.getD 0 0)
    (hlast : rwl.getD (rwl.length - 1) 0 ≤ quad.getD (quad.length - 1) 0) :
    (clampEnds quad rwl).getD 0 0 = rwl.getD 0 0 ∧
    (clampEnds quad rwl).getD ((clampEnds quad rwl).length - 1) 0 =
      rwl.getD (rwl.length - 1) 0 := by
  simp only [clampEnds]
  by_cases hA : quad.getD 0 0 < rwl.getD 0 0
  · rw [if_pos hA]
    have hq1len : (quad.set 0 (rwl.getD 0 0)).length = quad.length :=
      List.length_set quad 0 _
    have hq1h : (quad.set 0 (rwl.getD 0 0)).getD 0 0 = rwl.getD 0 0 :=
      getD_set_self quad 0 _ 0 (by omega)
    have hq1l : (quad.set 0 (rwl.getD 0 0)).getD
        ((quad.set 0 (rwl.getD 0 0)).length - 1) 0 =
        quad.getD (quad.length - 1) 0 := by
      rw [hq1len]
      exact getD_set_other quad 0 (quad.length - 1) _ 0 (by omega)
    by_cases hB : rwl.getD (rwl.length - 1) 0 <
        (quad.set 0 (rwl.getD 0 0)).getD
          ((quad.set 0 (rwl.getD 0 0)).length - 1) 0
    · rw [if_pos hB]
      constructor
      · rw [getD_set_other _ _ 0 _ 0 (by omega)]
        exact hq1h
      · simp only [List.length_set]
        exact getD_set_self _ _ _ 0 (by rw [hq1len]; omega)
    · rw [if_neg hB]
      exact ⟨hq1h, le_antisymm (not_lt.mp hB) (by rw [hq1l]; exact hlast)⟩
  · rw [if_neg hA]
    have hh : quad.getD 0 0 = rwl.getD 0 0 :=
      le_antisymm hhead (not_lt.mp hA)
    by_cases hB : rwl.getD (rwl.length - 1) 0 <
        quad.getD (quad.length - 1) 0
    · rw [if_pos hB]
      constructor
      · rw [getD_set_other _ _ 0 _ 0 (by omega)]
        exact hh
      · simp only [List.length_set]
        exact getD_set_self _ _ _ 0 (by omega)
    · rw [if_neg hB]
      exact ⟨hh, le_antisymm (not_lt.mp hB) hlast⟩

/-- Helper: reading a list back through `range` of its length. -/
theorem map_getD_range (l : List ℚ) :
    (List.range l.length).map (fun i => l.getD i 0) = l := by
  induction l with
  | nil => rfl
  | cons a t ih =>
    rw [List.length_cons, List.range_succ_eq_map, List.map_cons, List.map_map]
    have hcomp : ((fun i => (a :: t).getD i 0) ∘ Nat.succ) =
        (fun i => t.getD i 0) := by
      funext i
      simp [Function.comp, List.getD_cons_succ]
    rw [hcomp, ih, List.getD_cons_zero]

/-- Helper: gathering an array along its own `argsort` is a permutation of
the array (np.argsort followed by fancy indexing). -/
theorem argsort_map_perm (l : List ℚ) :
    ((argsort l).map (fun i => l.getD i 0)).Perm l := by
  have hp : (argsort l).Perm (List.range l.length) := List.mergeSort_perm _ _
  have := hp.map (fun i => l.getD i 0)
  rwa [map_getD_range] at this

/-- Helper: gathering an array along its own `argsort` is sorted. -/
theorem argsort_map_sorted (l : List ℚ) :
    ((argsort l).map (fun i => l.getD i 0)).Pairwise (· ≤ ·) := by
  have hs : ((List.range l.length).mergeSort
        (fun i j => decide (l.getD i 0 ≤ l.getD j 0))).Pairwise
      (fun i j => (decide (l.getD i 0 ≤ l.getD j 0)) = true) :=
    List.sorted_mergeSort
      (by
        intro a b c hab hbc
        exact decide_eq_true
          (le_trans (of_decide_eq_true hab) (of_decide_eq_true hbc)))
      (by
        intro a b
        rcases le_total (l.getD a 0) (l.getD b 0) with hle | hle
        · rw [Bool.or_eq_true]
          exact Or.inl (decide_eq_true hle)
        · rw [Bool.or_eq_true]
          exact Or.inr (decide_eq_true hle))
      (List.range l.length)
  rw [List.pairwise_map]
  exact List.Pairwise.imp (fun hab => of_decide_eq_true hab) hs

/-- Helper: inversion of `FilterConvolution.construct` through the
wavelength validation. -/
theorem conv_construct_ok (response : FilterResponse) (wavelength : List ℚ)
    (unit : Option ℚ) (photon_weighted interpolate : Bool) (units : Option ℚ)
    (conv : FilterConvolution)
    (h : FilterConvolution.construct response wavelength unit photon_weighted
      interpolate units = .ok conv) :
    ∃ wl, (validate_wavelength_array wavelength unit 2).1 = .ok wl ∧
      FilterConvolution.constructValidated response wl photon_weighted
        interpolate units = .ok conv := by
  unfold FilterConvolution.construct at h
  cases hv : (validate_wavelength_array wavelength unit 2).1 with
  | error e => rw [hv] at h; cases h
  | ok wl => rw [hv] at h; exact ⟨wl, rfl, h⟩

/-- Helper: inversion of `FilterConvolution.constructValidated`: success
recovers the coverage check, identifies the restricted grid and describes
the stored interpolation state and quadrature grid in both branches of the
undersampling test. -/
theorem conv_constructValidated_ok (response : FilterResponse) (wl : List ℚ)
    (photon_weighted interpolate : Bool) (units : Option ℚ)
    (conv : FilterConvolution)
    (h : FilterConvolution.constructValidated response wl photon_weighted
      interpolate units = .ok conv) :
    ¬(response._wavelength.getD 0 0 < wl.getD 0 0 ∨
      wl.getD (wl.length - 1) 0 <
        response._wavelength.getD (response._wavelength.length - 1) 0) ∧
    conv._wavelength = restrictGrid response._wavelength wl ∧
    (((undersampledFlags response._wavelength
          (restrictGrid response._wavelength wl)).any id = false ∧
        conv.interpolate_wavelength = none ∧
        conv.quad_wavelength =
          clampEnds (restrictGrid response._wavelength wl)
            response._wavelength) ∨
      ((undersampledFlags response._wavelength
          (restrictGrid response._wavelength wl)).any id = true ∧
        interpolate = true ∧
        conv.interpolate_wavelength = some
          ((undersampledIndices response._wavelength
              (restrictGrid response._wavelength wl)).map
            (fun i => response._wavelength.getD i 0)) ∧
        conv.quad_wavelength =
          clampEnds
            ((argsort (restrictGrid response._wavelength wl ++
                (undersampledIndices response._wavelength
                    (restrictGrid response._wavelength wl)).map
                  (fun i => response._wavelength.getD i 0))).map
              (fun i => (restrictGrid response._wavelength wl ++
                (undersampledIndices response._wavelength
                    (restrictGrid response._wavelength wl)).map
                  (fun i => response._wavelength.getD i 0)).getD i 0))
            response._wavelength)) := by
  simp only [FilterConvolution.constructValidated] at h
  split at h
  · cases h
  · rename_i hcov
    split at h
    · rename_i hany
      split at h
      · rename_i hint
        cases h
        exact ⟨hcov, rfl, Or.inr ⟨hany, hint, rfl, rfl⟩⟩
      · cases h
    · rename_i hany
      cases h
      exact ⟨hcov, rfl, Or.inl ⟨Bool.eq_false_iff.mpr hany, rfl, rfl⟩⟩

/-- Claim C4 amended: whenever the validated input grid passes the coverage
check but fails the sufficient-sampling test and interpolation is
disallowed, plan construction fails with the undersampling `ValueError` — no
plan object is created.  (The error class is the same generic `ValueError`
as validation errors; see `C4_counterexample`.) -/
theorem C4_amended (response : FilterResponse) (wavelength : List ℚ)
    (unit : Option ℚ) (photon_weighted : Bool) (units : Option ℚ)
    (wl : List ℚ)
    (hv : (validate_wavelength_array wavelength unit 2).1 = .ok wl)
    (hcov : ¬(response._wavelength.getD 0 0 < wl.getD 0 0 ∨
      wl.getD (wl.length - 1) 0 <
        response._wavelength.getD (response._wavelength.length - 1) 0))
    (hund : (undersampledFlags response._wavelength
      (restrictGrid response._wavelength wl)).any id = true) :
    FilterConvolution.construct response wavelength unit photon_weighted
      false units =
    .error (.valueError
      "Wavelengths undersample the response and interpolate is False.") := by
  unfold FilterConvolution.construct
  rw [hv]
  simp only [FilterConvolution.constructValidated]
  rw [if_neg hcov, if_pos hund, if_neg (by simp)]

/-- Witness for the amended claim C4: the triangular filter on the two-point
grid (5000, 7000) with interpolation disallowed fails with the
undersampling error. -/
theorem C4_amended_witness :
    FilterConvolution.construct triFilter [5000, 7000] none true false none =
      .error (.valueError
        "Wavelengths undersample the response and interpolate is False.") :=
  C4_amended triFilter [5000, 7000] none true none [5000, 7000]
    (by norm_num [validate_wavelength_array, npDiff])
    (by norm_num [triFilter])
    (by norm_num [undersampledFlags, insertIndexList, searchsorted,
      restrictGrid, restrictStart, restrictStop, List.countP_cons, triFilter])

/-- Claim C5: for a validated input grid, plan construction fails with the
coverage error exactly when the grid does not fully cover the filter's
stored wavelength interval, i.e. starts strictly above the filter's first
wavelength or ends strictly below the filter's last wavelength; in
particular a grid whose endpoints exactly equal the filter's boundary
wavelengths passes the coverage check. -/
theorem C5_coverage_iff (response : FilterResponse) (wavelength : List ℚ)
    (unit : Option ℚ) (photon_weighted interpolate : Bool) (units : Option ℚ)
    (wl : List ℚ)
    (hv : (validate_wavelength_array wavelength unit 2).1 = .ok wl) :
    (FilterConvolution.construct response wavelength unit photon_weighted
        interpolate units =
      .error (.valueError "Wavelengths do not cover filter response.")) ↔
    (response._wavelength.getD 0 0 < wl.getD 0 0 ∨
      wl.getD (wl.length - 1) 0 <
        response._wavelength.getD (response._wavelength.length - 1) 0) := by
  unfold FilterConvolution.construct
  rw [hv]
  simp only [FilterConvolution.constructValidated]
  by_cases hcov : (response._wavelength.getD 0 0 < wl.getD 0 0 ∨
      wl.getD (wl.length - 1) 0 <
        response._wavelength.getD (response._wavelength.length - 1) 0)
  · rw [if_pos hcov]
    exact iff_of_true rfl hcov
  · rw [if_neg hcov]
    refine iff_of_false ?_ hcov
    intro hcontra
    split at hcontra
    · split at hcontra
      · cases hcontra
      · rw [Except.error.injEq, PyErr.valueError.injEq] at hcontra
        exact absurd hcontra (by decide)
    · cases hcontra

/-- Witness for claim C5: the grid (5500, 8000) starts above the triangular
filter's first wavelength 5000, so construction fails with the coverage
error; the grid (5000, 6000, 7000), whose endpoints exactly equal the
filter's boundary wavelengths, passes the coverage check. -/
theorem C5_coverage_iff_witness :
    FilterConvolution.construct triFilter [5500, 8000] none true false none =
      .error (.valueError "Wavelengths do not cover filter response.") ∧
    ¬(FilterConvolution.construct triFilter [5000, 6000, 7000] none false
        false (some 1) =
      .error (.valueError "Wavelengths do not cover filter response.")) :=
  ⟨(C5_coverage_iff triFilter [5500, 8000] none true false none [5500, 8000]
      (by norm_num [validate_wavelength_array, npDiff])).mpr
      (by norm_num [triFilter]),
    fun h => absurd
      ((C5_coverage_iff triFilter [5000, 6000, 7000] none false false (some 1)
          [5000, 6000, 7000]
          (by norm_num [validate_wavelength_array, npDiff])).mp h)
      (by norm_num [triFilter])⟩

/-- Helper: the trimmed wavelength array stays sorted. -/
theorem trimSlices_fst_pairwise (wl response : List ℚ)
    (hw : wl.Pairwise (· < ·)) :
    (trimSlices wl response).1.Pairwise (· < ·) := by
  simp only [trimSlices]
  split
  · exact List.Pairwise.sublist
      ((List.take_sublist _ _).trans (List.drop_sublist _ _)) hw
  · exact hw

/-- Helper: a constructed filter curve stores a sorted wavelength array of
length at least 3. -/
theorem response_construct_wavelength_facts (wavelength : List ℚ)
    (unit : Option ℚ) (response : List ℚ) (fr : FilterResponse)
    (h : FilterResponse.construct wavelength unit response = .ok fr) :
    fr._wavelength.Pairwise (· < ·) ∧ 3 ≤ fr._wavelength.length := by
  rcases response_construct_ok wavelength unit response fr h with ⟨wl, hv, hcv⟩
  rcases validate_ok_facts wavelength unit 3 wl hv with ⟨hmin, hsort⟩
  rcases response_constructValidated_ok wl response fr hcv with
    ⟨hlen, hnn, hex, h0, hlast, hwfr, hrfr⟩
  have htf := trimSlices_facts wl response hlen hnn hex h0 hlast hmin
  constructor
  · rw [hwfr]; exact trimSlices_fst_pairwise wl response hsort
  · rw [hwfr, htf.2.2.2.2.2]
    exact htf.2.2.2.2.1

/-- Claim C7: for every successfully constructed plan over a constructed
filter curve, the first and last quadrature-grid wavelengths exactly equal
the filter's own first and last stored wavelengths. -/
theorem C7_quad_endpoints (w1 : List ℚ) (u1 : Option ℚ) (r1 : List ℚ)
    (response : FilterResponse) (wavelength : List ℚ) (unit : Option ℚ)
    (photon_weighted interpolate : Bool) (units : Option ℚ)
    (conv : FilterConvolution)
    (hr : FilterResponse.construct w1 u1 r1 = .ok response)
    (hc : FilterConvolution.construct response wavelength unit photon_weighted
      interpolate units = .ok conv) :
    conv.quad_wavelength.getD 0 0 = response._wavelength.getD 0 0 ∧
    conv.quad_wavelength.getD (conv.quad_wavelength.length - 1) 0 =
      response._wavelength.getD (response._wavelength.length - 1) 0 := by
  obtain ⟨hwsort, hwlen3⟩ :=
    response_construct_wavelength_facts w1 u1 r1 response hr
  have hab : response._wavelength.getD 0 0 <
      response._wavelength.getD (response._wavelength.length - 1) 0 :=
    pairwise_getD_lt _ hwsort 0 _ (by omega) (by omega)
  obtain ⟨wl, hv, hcv⟩ := conv_construct_ok response wavelength unit
    photon_weighted interpolate units conv hc
  obtain ⟨hmin2, hsort2⟩ := validate_ok_facts wavelength unit 2 wl hv
  obtain ⟨hcov, hwl', hbranch⟩ := conv_constructValidated_ok response wl
    photon_weighted interpolate units conv hcv
  push_neg at hcov
  obtain ⟨hg2, hgsort, hghead, hglast⟩ := restrictGrid_facts
    response._wavelength wl hsort2 hcov.1 hcov.2 hab hmin2
  rcases hbranch with ⟨hany, hiw, hquad⟩ | ⟨hany, hint, hiw, hquad⟩
  · rw [hquad]
    exact clampEnds_facts _ _ hg2 hghead hglast
  · rw [hquad]
    have hperm := argsort_map_perm (restrictGrid response._wavelength wl ++
      (undersampledIndices response._wavelength
          (restrictGrid response._wavelength wl)).map
        (fun i => response._wavelength.getD i 0))
    have hsorted := argsort_map_sorted (restrictGrid response._wavelength wl ++
      (undersampledIndices response._wavelength
          (restrictGrid response._wavelength wl)).map
        (fun i => response._wavelength.getD i 0))
    have hlen1 := hperm.length_eq
    rw [List.length_append] at hlen1
    have hmem1 : (restrictGrid response._wavelength wl).getD 0 0 ∈
        ((argsort _).map (fun i => (restrictGrid response._wavelength wl ++
          (undersampledIndices response._wavelength
              (restrictGrid response._wavelength wl)).map
            (fun i => response._wavelength.getD i 0)).getD i 0)) :=
      hperm.symm.subset (List.mem_append_left _
        (getD_mem _ 0 0 (by omega)))
    have hmem2 : (restrictGrid response._wavelength wl).getD
        ((restrictGrid response._wavelength wl).length - 1) 0 ∈
        ((argsort _).map (fun i => (restrictGrid response._wavelength wl ++
          (undersampledIndices response._wavelength
              (restrictGrid response._wavelength wl)).map
            (fun i => response._wavelength.getD i 0)).getD i 0)) :=
      hperm.symm.subset (List.mem_append_left _
        (getD_mem _ _ 0 (by omega)))
    apply clampEnds_facts
    · rw [hperm.length_eq, List.length_append]
      omega
    · exact le_trans (pairwise_le_head _ 0 hsorted hmem1) hghead
    · exact le_trans hglast (pairwise_le_last _ 0 hsorted _ hmem2)

/-- A plan of the triangular filter over the grid
(4500, 5500, 6000, 6500, 7500): the grid passes the sufficiency test, so no
interpolation nodes are created, and both quadrature endpoints are clamped
to the filter's boundary wavelengths. -/
def exPlanWide : FilterConvolution :=
  ⟨triFilter, 5, [4500, 5500, 6000, 6500, 7500], 0, 5, [0, 1/2, 1, 1/2, 0],
    none, none, none, [5000, 5500, 6000, 6500, 7000], none, none, none⟩

/-- The constructor output for the wide-grid plan (with interpolation
allowed but not needed). -/
theorem exPlanWide_construct :
    FilterConvolution.construct triFilter [4500, 5500, 6000, 6500, 7500] none
      false true none = .ok exPlanWide := by
  norm_num [FilterConvolution.construct, FilterConvolution.constructValidated,
    validate_wavelength_array, npDiff, restrictGrid, restrictStart, restrictStop,
    undersampledFlags, insertIndexList, searchsorted, clampEnds,
    interp1dLinear, List.countP_cons, List.set_cons_zero, List.set_cons_succ,
    exPlanWide, triFilter]

/-- Witness for claim C7: the wide-grid plan's quadrature grid starts and
ends exactly at the triangular filter's boundary wavelengths 5000 and
7000. -/
theorem C7_quad_endpoints_witness :
    exPlanWide.quad_wavelength.getD 0 0 = triFilter._wavelength.getD 0 0 ∧
    exPlanWide.quad_wavelength.getD (exPlanWide.quad_wavelength.length - 1) 0 =
      triFilter._wavelength.getD (triFilter._wavelength.length - 1) 0 :=
  C7_quad_endpoints [5000, 6000, 7000] none [0, 1, 0] triFilter
    [4500, 5500, 6000, 6500, 7500] none false true none exPlanWide
    triFilter_construct exPlanWide_construct

/-- Helper: length of the undersampling flag array (`np.diff` of the
insertion positions of all filter wavelengths but the first). -/
theorem undersampledFlags_length (rwl wl' : List ℚ) :
    (undersampledFlags rwl wl').length = rwl.length - 2 := by
  simp only [undersampledFlags, List.length_zipWith, insertIndexList,
    List.length_map, List.length_drop]
  omega

/-- Helper: optional indexing of an in-range index as a `getD` value. -/
theorem getElem?_eq_some_getD (l : List ℚ) (i : Nat) (d : ℚ)
    (hi : i < l.length) : l[i]? = some (l.getD i d) := by
  rw [List.getD_eq_getElem l d hi, List.getElem?_eq_getElem hi]

/-- Helper: entry `j` of the insertion-position array is the insertion
position of filter wavelength `j + 1`. -/
theorem insertIndexList_getElem (rwl wl' : List ℚ) (j : Nat)
    (hj : j < rwl.length - 1) :
    (insertIndexList rwl wl')[j]? =
      some (searchsorted wl' (rwl.getD (j + 1) 0)) := by
  have hj1 : 1 + j < rwl.length := by omega
  simp only [insertIndexList, List.getElem?_map, List.getElem?_drop]
  rw [getElem?_eq_some_getD rwl (1 + j) 0 hj1]
  simp only [Option.map_some']
  rw [Nat.add_comm 1 j]

/-- Helper: flag `i` records whether filter wavelengths `i + 1` and `i + 2`
share an insertion position. -/
theorem undersampledFlags_getElem (rwl wl' : List ℚ) (i : Nat)
    (hi : i < rwl.length - 2) :
    (undersampledFlags rwl wl')[i]? =
      some (amendedUndersampled rwl wl' (i + 1)) := by
  simp only [undersampledFlags, List.getElem?_zipWith, List.getElem?_drop]
  rw [insertIndexList_getElem rwl wl' i (by omega),
    insertIndexList_getElem rwl wl' (1 + i) (by omega)]
  simp only [amendedUndersampled]
  have h1 : 1 + i + 1 = i + 1 + 1 := by omega
  rw [h1]

/-- Helper: the source's undersampled-index pipeline
(`1 + np.where(np.diff(insert_index) == 0)[0]`) computes exactly the filter
wavelength indices 1..n-2 whose successor shares their insertion
position. -/
theorem undersampledIndices_eq (rwl wl' : List ℚ) :
    undersampledIndices rwl wl' =
      (List.range' 1 (rwl.length - 2)).filter (amendedUndersampled rwl wl') := by
  simp only [undersampledIndices]
  rw [undersampledFlags_length]
  have hcongr : ∀ i ∈ List.range (rwl.length - 2),
      ((undersampledFlags rwl wl').getD i false) =
        amendedUndersampled rwl wl' (i + 1) := by
    intro i hi
    have hilt : i < rwl.length - 2 := List.mem_range.mp hi
    rw [List.getD_eq_getElem?_getD, undersampledFlags_getElem rwl wl' i hilt]
    rfl
  rw [List.filter_congr hcongr, List.range'_eq_map_range]
  have hpred : (fun i => amendedUndersampled rwl wl' (i + 1)) =
      ((amendedUndersampled rwl wl') ∘ (fun x => 1 + x)) := by
    funext i
    simp only [Function.comp]
    rw [Nat.add_comm]
  rw [hpred, List.filter_map]
  exact List.map_congr_left (fun i _ => by rw [Nat.add_comm])

/-- Helper: the source's undersampling test fires exactly when some filter
wavelength with index 1..n-2 shares its insertion position with its
successor. -/
theorem undersampledFlags_any_eq (rwl wl' : List ℚ) :
    ((undersampledFlags rwl wl').any id = true) ↔
      (amendedAny rwl wl' = true) := by
  rw [List.any_eq_true]
  simp only [amendedAny, List.any_eq_true, List.mem_range'_1, id]
  constructor
  · rintro ⟨b, hb, hbt⟩
    rcases List.mem_iff_getElem?.mp hb with ⟨i, hieq⟩
    have hilen : i < (undersampledFlags rwl wl').length :=
      List.getElem?_eq_some_iff.mp hieq |>.choose
    rw [undersampledFlags_length] at hilen
    rw [undersampledFlags_getElem rwl wl' i hilen] at hieq
    refine ⟨i + 1, ⟨by omega, by omega⟩, ?_⟩
    rw [← Option.some.injEq] at hieq
    cases hieq
    exact hbt
  · rintro ⟨j, ⟨hj1, hj2⟩, hjt⟩
    refine ⟨amendedUndersampled rwl wl' j, ?_, hjt⟩
    apply List.mem_iff_getElem?.mpr
    refine ⟨j - 1, ?_⟩
    have hjeq : j - 1 + 1 = j := by omega
    rw [undersampledFlags_getElem rwl wl' (j - 1) (by omega), hjeq]

/-- Claim C1 amended: for every successfully constructed plan with
interpolation allowed, the stored extra interpolation nodes are exactly the
filter wavelengths at indices 1..n-2 whose immediate successor — possibly
the filter's upper boundary point — maps to the same insertion position in
the restricted input grid (within each run of colliding wavelengths, all
but the last); they are present exactly when some such collision exists,
which is also the source's undersampling-detection condition. -/
theorem C1_amended (response : FilterResponse) (wavelength : List ℚ)
    (unit : Option ℚ) (photon_weighted : Bool) (units : Option ℚ)
    (conv : FilterConvolution)
    (h : FilterConvolution.construct response wavelength unit photon_weighted
      true units = .ok conv) :
    conv.interpolate_wavelength =
      if amendedAny response._wavelength conv._wavelength then
        some (amendedNodes response._wavelength conv._wavelength)
      else none := by
  obtain ⟨wl, hv, hcv⟩ := conv_construct_ok response wavelength unit
    photon_weighted true units conv h
  obtain ⟨hcov, hwl', hbranch⟩ := conv_constructValidated_ok response wl
    photon_weighted true units conv hcv
  rw [hwl']
  rcases hbranch with ⟨hany, hiw, _⟩ | ⟨hany, _, hiw, _⟩
  · rw [hiw, if_neg]
    intro hamend
    have := (undersampledFlags_any_eq response._wavelength
      (restrictGrid response._wavelength wl)).mpr hamend
    rw [hany] at this
    cases this
  · rw [hiw, if_pos ((undersampledFlags_any_eq response._wavelength
      (restrictGrid response._wavelength wl)).mp hany)]
    rw [undersampledIndices_eq]
    rfl

/-- Witness for the amended claim C1: the wide-grid plan of the triangular
filter has no collision among the relevant filter wavelengths, and
accordingly stores no interpolation nodes. -/
theorem C1_amended_witness :
    exPlanWide.interpolate_wavelength =
      if amendedAny triFilter._wavelength exPlanWide._wavelength then
        some (amendedNodes triFilter._wavelength exPlanWide._wavelength)
      else none :=
  C1_amended triFilter [4500, 5500, 6000, 6500, 7500] none false none
    exPlanWide exPlanWide_construct
